import Mathlib

/-!
# Verification of the sandyclaw R2 backup/verify pipeline

Shallow embedding of `syncToR2` and `verifyR2Backup` from
`src/gateway/index.ts` (the sync module). External collaborators — the
command executor (`sandbox.startProcess` / `waitForProcess` / `getLogs`),
the mount provider (`mountR2Storage`) and the JS builtin `JSON.parse` —
are modelled as oracles supplied by the caller: each spawned command's
observable behaviour is either a completed process with captured logs or
a thrown JS error.  The functions also return the ordered trace of
side-effecting operations they issued, so that "no command was issued"
claims are statable.
-/

/-- Captured output of a completed process, as returned by `getLogs()`
(the `stdout` / `stderr` fields are optional in TS). `exitCode` is carried
for fidelity; the sync module never reads it. -/
structure ProcLogs where
  stdout : Option String
  stderr : Option String
  exitCode : Int
deriving Repr, DecidableEq

/-- A thrown JS value: either an `Error` carrying a message, or any other
value (for which the code substitutes a fixed fallback text). -/
inductive JsError where
  | error (msg : String)
  | other
deriving Repr, DecidableEq

/-- The environment bindings consulted by the sync module.  Each field is
`Option String`; JS truthiness treats both `undefined` and `""` as falsy. -/
structure MoltbotEnv where
  R2_ACCESS_KEY_ID : Option String
  R2_SECRET_ACCESS_KEY : Option String
  CF_ACCOUNT_ID : Option String
deriving Repr, DecidableEq

/-- JS falsiness of an optional string: `undefined` and `""` are falsy. -/
def falsyStr : Option String → Bool
  | none => true
  | some s => s = ""

/-- JS `a || b` on optional strings: `b` when `a` is falsy, else `a`. -/
def jsOrStr (a b : Option String) : Option String :=
  if falsyStr a then b else a

/-- JS `String.prototype.trim`: strip leading and trailing whitespace. -/
def jsTrim (s : String) : String :=
  ⟨((s.data.dropWhile Char.isWhitespace).reverse.dropWhile
      Char.isWhitespace).reverse⟩

/-- Split a character list at every occurrence of `sep`. -/
def splitOnChar (sep : Char) : List Char → List (List Char)
  | [] => [[]]
  | c :: rest =>
    let r := splitOnChar sep rest
    if c = sep then [] :: r
    else
      match r with
      | [] => [[c]]
      | h :: t => (c :: h) :: t

/-- JS `String.prototype.split` with a one-character separator. -/
def jsSplit (s : String) (sep : Char) : List String :=
  (splitOnChar sep s.data).map (fun l => ⟨l⟩)

/-- `need` is a leading segment of `hay`. -/
def leadsList : List Char → List Char → Bool
  | [], _ => true
  | _ :: _, [] => false
  | a :: as, b :: bs => a = b && leadsList as bs

/-- `need` occurs somewhere inside `hay`. -/
def containsList (hay need : List Char) : Bool :=
  match hay with
  | [] => need.isEmpty
  | _ :: rest => leadsList need hay || containsList rest need

/-- JS `String.prototype.includes`: `sub` occurs somewhere in `s`. -/
def strContains (s sub : String) : Bool :=
  containsList s.data sub.data

/-- `env.R2_ACCESS_KEY_ID || env.R2_SECRET_ACCESS_KEY || env.CF_ACCOUNT_ID`
missing check from both public entry points. -/
def configMissing (env : MoltbotEnv) : Bool :=
  falsyStr env.R2_ACCESS_KEY_ID || falsyStr env.R2_SECRET_ACCESS_KEY ||
    falsyStr env.CF_ACCOUNT_ID

/-- `err instanceof Error ? err.message : 'Unknown error'` (sync module). -/
def errDetails : JsError → String
  | .error m => m
  | .other => "Unknown error"

/-- `err instanceof Error ? err.message : 'Unknown'` (verify module). -/
def errShort : JsError → String
  | .error m => m
  | .other => "Unknown"

/-- The structured result of a sync cycle (TS interface `SyncResult`). -/
structure SyncResult where
  success : Bool
  lastSync : Option String := none
  error : Option String := none
  details : Option String := none
deriving Repr, DecidableEq

/-- One per-file record of the backup manifest (TS `ManifestEntry`). -/
structure ManifestEntry where
  path : String
  checksum : String
  size : Int
deriving Repr, DecidableEq

/-- The persisted manifest document (TS `BackupManifest`). -/
structure BackupManifest where
  version : Int
  timestamp : String
  entries : List ManifestEntry
deriving Repr, DecidableEq

/-- The result of a verification pass. -/
structure VerifyResult where
  valid : Bool
  errors : List String
deriving Repr, DecidableEq

/-- Side-effecting operations the pipeline can issue, in program order:
the mount attempt, and each spawned command identified by its role. -/
inductive Eff where
  | mount
  | sanityCheck
  | rotate
  | transfer
  | manifestGen
  | writeManifest
  | readTimestamp
  | readManifest
  | checksum (path : String)
deriving Repr, DecidableEq

/-- Oracle for one spawned command: it either completes with captured
logs (any exit code) or the awaiting of it throws (e.g. a timeout). -/
abbrev StepR := Except JsError ProcLogs

/-- Behaviour of the external world during one `syncToR2` invocation:
the mount provider's answer and the outcome of each command the pipeline
spawns, in order. -/
structure SyncSandbox where
  mountOk : Bool
  sanity : StepR
  rotate : StepR
  transfer : StepR
  manifestGen : StepR
  writeManifest : StepR
  readTimestamp : StepR

/-- Decimal digit run to a number (ASCII digits). -/
def digitsToNat (ds : List Char) : Nat :=
  ds.foldl (fun a c => a * 10 + (c.toNat - 48)) 0

/-- JS `parseInt(s, 10)`: skip leading whitespace, optional sign, then the
longest leading run of decimal digits; `none` models `NaN`. -/
def parseIntJS (s : String) : Option Int :=
  let cs := s.data.dropWhile Char.isWhitespace
  match cs with
  | '-' :: rest =>
    let ds := rest.takeWhile Char.isDigit
    if ds.isEmpty then none else some (-(digitsToNat ds : Int))
  | '+' :: rest =>
    let ds := rest.takeWhile Char.isDigit
    if ds.isEmpty then none else some (digitsToNat ds)
  | _ =>
    let ds := cs.takeWhile Char.isDigit
    if ds.isEmpty then none else some (digitsToNat ds)

/-- `parseInt(size, 10) || 0`: an absent third field destructures to
`undefined` (`parseInt` then yields `NaN`), and `NaN || 0` is `0`. -/
def parseSizeJS : Option String → Int
  | none => 0
  | some s => (parseIntJS s).getD 0

/-- One manifest line `path|checksum|size` destructured by
`line.split('|')`; extra fields are ignored, missing ones are
`undefined`. -/
def parseManifestLine (line : String) : ManifestEntry :=
  let parts := jsSplit line '|'
  { path := (parts[0]?).getD ""
    checksum := (parts[1]?).getD ""
    size := parseSizeJS parts[2]? }

/-- `(stdout || '').trim().split('\n').filter(line => line.includes('|')).map(...)`:
the manifest entries built from the manifest-generation command's output. -/
def manifestEntries (stdout : Option String) : List ManifestEntry :=
  ((jsSplit (jsTrim (stdout.getD "")) '\n').filter
    (fun l => strContains l "|")).map parseManifestLine

/-- `lastSync.match(/^\d{4}-\d{2}-\d{2}/)`: the string starts with four
digits, a dash, two digits, a dash, two digits. -/
def matchesDateStart (s : String) : Bool :=
  match s.data with
  | a :: b :: c :: d :: e :: f :: g :: h :: i :: j :: _ =>
    a.isDigit && b.isDigit && c.isDigit && d.isDigit && e = '-' &&
      f.isDigit && g.isDigit && h = '-' && i.isDigit && j.isDigit
  | _ => false

/-- `lastSync && lastSync.match(/^\d{4}-\d{2}-\d{2}/)`: the read-back
timestamp token (optional-chained, trimmed) is truthy and well formed. -/
def tokenOk : Option String → Bool
  | none => false
  | some s => !(s = "") && matchesDateStart s

/-- `checkLogs.stdout?.includes('ok')`: the sanity-check process printed
the marker (`undefined` stdout is falsy). -/
def sanityOk (logs : ProcLogs) : Bool :=
  match logs.stdout with
  | some s => strContains s "ok"
  | none => false

/-- The body of the big `try` block of `syncToR2`, from backup rotation
to the timestamp read-back.  A `.error` outcome of a step propagates as a
thrown error (first component); the trace of issued commands (second
component) is kept either way. -/
def syncAttempt (sb : SyncSandbox) : Except JsError SyncResult × List Eff :=
  match sb.rotate with
  | .error e => (.error e, [.rotate])
  | .ok _ =>
    match sb.transfer with
    | .error e => (.error e, [.rotate, .transfer])
    | .ok transferLogs =>
      match sb.manifestGen with
      | .error e => (.error e, [.rotate, .transfer, .manifestGen])
      | .ok _ =>
        match sb.writeManifest with
        | .error e =>
          (.error e, [.rotate, .transfer, .manifestGen, .writeManifest])
        | .ok _ =>
          match sb.readTimestamp with
          | .error e =>
            (.error e,
             [.rotate, .transfer, .manifestGen, .writeManifest,
              .readTimestamp])
          | .ok tsLogs =>
            let lastSync := tsLogs.stdout.map jsTrim
            if tokenOk lastSync then
              (.ok { success := true, lastSync := lastSync },
               [.rotate, .transfer, .manifestGen, .writeManifest,
                .readTimestamp])
            else
              (.ok { success := false, error := some "Sync failed"
                     details := jsOrStr transferLogs.stderr
                       (jsOrStr transferLogs.stdout
                         (some "No timestamp file created")) },
               [.rotate, .transfer, .manifestGen, .writeManifest,
                .readTimestamp])

/-- `syncToR2(sandbox, env)`: config check, mount, source sanity check
(with its own `catch`), then the rotation/transfer/manifest pipeline whose
`catch` turns any thrown error into a `Sync error` result.  The first
component is the settled promise (`.ok` = resolved with a `SyncResult`,
`.error` = rejected); the second is the ordered trace of issued
side-effecting operations. -/
def syncToR2 (env : MoltbotEnv) (sb : SyncSandbox) :
    Except JsError SyncResult × List Eff :=
  if configMissing env then
    (.ok { success := false, error := some "R2 storage is not configured" },
     [])
  else if !sb.mountOk then
    (.ok { success := false, error := some "Failed to mount R2 storage" },
     [.mount])
  else
    match sb.sanity with
    | .error e =>
      (.ok { success := false, error := some "Failed to verify source files"
             details := some (errDetails e) },
       [.mount, .sanityCheck])
    | .ok checkLogs =>
      if !sanityOk checkLogs then
        (.ok { success := false
               error := some "Sync aborted: source missing clawdbot.json"
               details := some "The local config directory is missing critical files. This could indicate corruption or an incomplete setup." },
         [.mount, .sanityCheck])
      else
        match syncAttempt sb with
        | (.error e, tr) =>
          (.ok { success := false, error := some "Sync error"
                 details := some (errDetails e) },
           .mount :: .sanityCheck :: tr)
        | (.ok r, tr) => (.ok r, .mount :: .sanityCheck :: tr)

/-- Behaviour of the external world during one `verifyR2Backup`
invocation: mount answer, manifest read-back outcome, the JS
`JSON.parse` oracle, and per-path checksum command outcomes. -/
structure VerifySandbox where
  mountOk : Bool
  readManifest : StepR
  parseJson : String → Except JsError BackupManifest
  checksumOf : String → StepR

/-- `actualChecksum !== entry.checksum` where `actualChecksum` is the
optional-chained trimmed stdout (`undefined` compares unequal to any
string). -/
def checksumNe (actual : Option String) (expected : String) : Bool :=
  match actual with
  | none => true
  | some a => !(a = expected)

/-- Template-literal rendering of a possibly-`undefined` string. -/
def jsRender : Option String → String
  | none => "undefined"
  | some s => s

/-- The error message pushed for one mismatching manifest entry. -/
def checksumMsg (e : ManifestEntry) (actual : Option String) : String :=
  "Checksum mismatch: " ++ e.path ++ " (expected " ++ e.checksum ++
    ", got " ++ jsRender actual ++ ")"

/-- The per-entry verification loop of `verifyR2Backup`: recompute each
entry's checksum in order, accumulating mismatch messages; a thrown step
error propagates (first component) with the trace kept. -/
def verifyLoop (sb : VerifySandbox) :
    List ManifestEntry → List String → List Eff →
    Except JsError (List String) × List Eff
  | [], errs, tr => (.ok errs, tr)
  | e :: rest, errs, tr =>
    match sb.checksumOf e.path with
    | .error err => (.error err, tr ++ [.checksum e.path])
    | .ok logs =>
      let actual := logs.stdout.map jsTrim
      let errs2 :=
        if checksumNe actual e.checksum then errs ++ [checksumMsg e actual]
        else errs
      verifyLoop sb rest errs2 (tr ++ [.checksum e.path])

/-- `verifyR2Backup(sandbox, env)`: config check, mount, manifest
read-back, `JSON.parse`, then the checksum loop; the surrounding `catch`
turns any thrown error into a `Verification error: …` result. -/
def verifyR2Backup (env : MoltbotEnv) (sb : VerifySandbox) :
    Except JsError VerifyResult × List Eff :=
  if configMissing env then
    (.ok { valid := false, errors := ["R2 storage is not configured"] }, [])
  else if !sb.mountOk then
    (.ok { valid := false, errors := ["Failed to mount R2 storage"] },
     [.mount])
  else
    match sb.readManifest with
    | .error e =>
      (.ok { valid := false
             errors := ["Verification error: " ++ errShort e] },
       [.mount, .readManifest])
    | .ok logs =>
      if falsyStr logs.stdout then
        (.ok { valid := false
               errors := ["No manifest found - backup may be from older version"] },
         [.mount, .readManifest])
      else
        match sb.parseJson (logs.stdout.getD "") with
        | .error e =>
          (.ok { valid := false
                 errors := ["Verification error: " ++ errShort e] },
           [.mount, .readManifest])
        | .ok manifest =>
          match verifyLoop sb manifest.entries [] [.mount, .readManifest] with
          | (.error e, tr) =>
            (.ok { valid := false
                   errors := ["Verification error: " ++ errShort e] },
             tr)
          | (.ok errs, tr) =>
            (.ok { valid := errs.isEmpty, errors := errs }, tr)

/-- Whether a manifest entry's recomputed checksum disagrees with the
recorded one, under a given sandbox behaviour (meaningful when the
checksum command completes). -/
def entryCorrupt (sb : VerifySandbox) (e : ManifestEntry) : Bool :=
  match sb.checksumOf e.path with
  | .error _ => false
  | .ok logs => checksumNe (logs.stdout.map jsTrim) e.checksum

/-- The mismatch message recorded for a manifest entry under a given
sandbox behaviour (meaningful when the checksum command completes). -/
def entryMsg (sb : VerifySandbox) (e : ManifestEntry) : String :=
  match sb.checksumOf e.path with
  | .error _ => ""
  | .ok logs => checksumMsg e (logs.stdout.map jsTrim)

/-- A fully configured environment, used to instantiate theorems. -/
def envOk : MoltbotEnv :=
  { R2_ACCESS_KEY_ID := some "ak"
    R2_SECRET_ACCESS_KEY := some "sk"
    CF_ACCOUNT_ID := some "acct" }

/-- An environment with a missing credential. -/
def envNoKey : MoltbotEnv :=
  { R2_ACCESS_KEY_ID := none
    R2_SECRET_ACCESS_KEY := some "sk"
    CF_ACCOUNT_ID := some "acct" }

/-- Logs of a quietly succeeding process. -/
def quietLogs : ProcLogs := ⟨some "", none, 0⟩

/-- A sandbox behaviour in which every step of a sync cycle succeeds. -/
def sbGood : SyncSandbox :=
  { mountOk := true
    sanity := .ok ⟨some "ok", none, 0⟩
    rotate := .ok quietLogs
    transfer := .ok quietLogs
    manifestGen := .ok ⟨some "clawdbot/clawdbot.json|abc123|100", none, 0⟩
    writeManifest := .ok quietLogs
    readTimestamp := .ok ⟨some "2026-01-27T12:00:00+00:00\n", none, 0⟩ }

/-- A concrete two-entry manifest, one entry of which will be corrupted
by `vsbC3`. -/
def mC3 : BackupManifest :=
  { version := 1
    timestamp := "2026-01-27T12:00:00.000Z"
    entries := [⟨"clawdbot/good.json", "aaa", 10⟩,
                ⟨"clawdbot/bad.json", "bbb", 5⟩] }

/-- A concrete verify-sandbox behaviour: the manifest parses to `mC3`,
the first entry's recomputed checksum agrees and the second one's does
not. -/
def vsbC3 : VerifySandbox :=
  { mountOk := true
    readManifest := .ok ⟨some "manifest-json", none, 0⟩
    parseJson := fun _ => .ok mC3
    checksumOf := fun p =>
      .ok ⟨some (if p = "clawdbot/good.json" then "aaa" else "zzz"),
           none, 0⟩ }

example :
    manifestEntries (some "clawdbot/clawdbot.json|abc123|100\n") =
      [⟨"clawdbot/clawdbot.json", "abc123", 100⟩] := by decide

example : tokenOk (some "2026-01-27T12:00:00+00:00") = true := by decide

example : tokenOk (some "") = false := by decide

/-- C5: for every environment missing a required storage credential,
`syncToR2` returns `success=false` with error `R2 storage is not
configured`, `verifyR2Backup` returns `valid=false` with that message in
`errors`, and both traces are empty: no mount attempt and no command is
issued. -/
theorem config_missing_zero_side_effects
    (env : MoltbotEnv) (ssb : SyncSandbox) (vsb : VerifySandbox)
    (hconfig : configMissing env = true) :
    syncToR2 env ssb =
      (.ok { success := false, error := some "R2 storage is not configured" },
       []) ∧
    verifyR2Backup env vsb =
      (.ok { valid := false, errors := ["R2 storage is not configured"] },
       []) := by
  constructor
  · simp [syncToR2, hconfig]
  · simp [verifyR2Backup, hconfig]

/-- Witness for C5 at a concrete environment and sandbox. -/
theorem config_missing_zero_side_effects_w :
    syncToR2 envNoKey sbGood =
      (.ok { success := false, error := some "R2 storage is not configured" },
       []) ∧
    verifyR2Backup envNoKey
        { mountOk := true
          readManifest := .ok quietLogs
          parseJson := fun _ => .error .other
          checksumOf := fun _ => .ok quietLogs } =
      (.ok { valid := false, errors := ["R2 storage is not configured"] },
       []) :=
  config_missing_zero_side_effects envNoKey sbGood _ (by decide)

/-- C1: when config and mount succeed but the source sanity check's
stdout does not contain `ok`, `syncToR2` returns `success=false` with an
error naming the missing critical file, and the trace shows that neither
the rotation command nor the transfer command was issued. -/
theorem syncToR2_sanity_fail_aborts
    (env : MoltbotEnv) (sb : SyncSandbox) (cl : ProcLogs)
    (hconfig : configMissing env = false)
    (hmount : sb.mountOk = true)
    (hsanity : sb.sanity = .ok cl)
    (hnok : sanityOk cl = false) :
    syncToR2 env sb =
      (.ok { success := false
             error := some "Sync aborted: source missing clawdbot.json"
             details := some "The local config directory is missing critical files. This could indicate corruption or an incomplete setup." },
       [.mount, .sanityCheck]) ∧
    Eff.rotate ∉ (syncToR2 env sb).2 ∧
    Eff.transfer ∉ (syncToR2 env sb).2 := by
  have h : syncToR2 env sb =
      (.ok { success := false
             error := some "Sync aborted: source missing clawdbot.json"
             details := some "The local config directory is missing critical files. This could indicate corruption or an incomplete setup." },
       [.mount, .sanityCheck]) := by
    simp [syncToR2, hconfig, hmount, hsanity, hnok]
  refine ⟨h, ?_, ?_⟩ <;> rw [h] <;> decide

/-- Witness for C1: a concrete sandbox whose sanity check prints nothing. -/
theorem syncToR2_sanity_fail_aborts_w :
    syncToR2 envOk { sbGood with sanity := .ok ⟨some "", none, 0⟩ } =
      (.ok { success := false
             error := some "Sync aborted: source missing clawdbot.json"
             details := some "The local config directory is missing critical files. This could indicate corruption or an incomplete setup." },
       [.mount, .sanityCheck]) ∧
    Eff.rotate ∉
      (syncToR2 envOk { sbGood with sanity := .ok ⟨some "", none, 0⟩ }).2 ∧
    Eff.transfer ∉
      (syncToR2 envOk { sbGood with sanity := .ok ⟨some "", none, 0⟩ }).2 :=
  syncToR2_sanity_fail_aborts envOk _ ⟨some "", none, 0⟩ (by decide) rfl rfl
    (by decide)

/-- C8: when config and mount succeed but the manifest read-back has no
content, `verifyR2Backup` resolves (no exception) with `valid=false` and
a single `No manifest found …` error. -/
theorem verifyR2Backup_no_manifest
    (env : MoltbotEnv) (sb : VerifySandbox) (logs : ProcLogs)
    (hconfig : configMissing env = false)
    (hmount : sb.mountOk = true)
    (hread : sb.readManifest = .ok logs)
    (hempty : falsyStr logs.stdout = true) :
    verifyR2Backup env sb =
      (.ok { valid := false
             errors := ["No manifest found - backup may be from older version"] },
       [.mount, .readManifest]) := by
  simp [verifyR2Backup, hconfig, hmount, hread, hempty]

/-- Witness for C8: a concrete sandbox whose manifest read-back prints
nothing. -/
theorem verifyR2Backup_no_manifest_w :
    verifyR2Backup envOk
        { mountOk := true
          readManifest := .ok ⟨some "", none, 0⟩
          parseJson := fun _ => .error .other
          checksumOf := fun _ => .ok quietLogs } =
      (.ok { valid := false
             errors := ["No manifest found - backup may be from older version"] },
       [.mount, .readManifest]) :=
  verifyR2Backup_no_manifest envOk _ ⟨some "", none, 0⟩ (by decide) rfl rfl
    (by decide)

/-- When config, mount and the sanity check succeed and every pipeline
step completes with a well-formed read-back token, `syncToR2` returns the
successful result carrying the trimmed token, with the full trace. -/
theorem sync_success_shape
    (env : MoltbotEnv) (sb : SyncSandbox) (cl rl tl ml wl tsl : ProcLogs)
    (tok : String)
    (hconfig : configMissing env = false)
    (hmount : sb.mountOk = true)
    (hsanity : sb.sanity = .ok cl)
    (hok : sanityOk cl = true)
    (hrot : sb.rotate = .ok rl)
    (htr : sb.transfer = .ok tl)
    (hman : sb.manifestGen = .ok ml)
    (hwr : sb.writeManifest = .ok wl)
    (hts : sb.readTimestamp = .ok tsl)
    (htok : tsl.stdout = some tok)
    (hgood : tokenOk (some (jsTrim tok)) = true) :
    syncToR2 env sb =
      (.ok { success := true, lastSync := some (jsTrim tok) },
       [.mount, .sanityCheck, .rotate, .transfer, .manifestGen,
        .writeManifest, .readTimestamp]) := by
  simp [syncToR2, syncAttempt, hconfig, hmount, hsanity, hok, hrot, htr,
    hman, hwr, hts, htok, hgood]

/-- When config, mount and the sanity check succeed, every pipeline step
completes, but the read-back token is not a well-formed date, `syncToR2`
returns `Sync failed` with details from the transfer step's captured
output (stderr, else stdout, else a fixed fallback), with the full
trace. -/
theorem sync_fail_shape
    (env : MoltbotEnv) (sb : SyncSandbox) (cl rl tl ml wl tsl : ProcLogs)
    (hconfig : configMissing env = false)
    (hmount : sb.mountOk = true)
    (hsanity : sb.sanity = .ok cl)
    (hok : sanityOk cl = true)
    (hrot : sb.rotate = .ok rl)
    (htr : sb.transfer = .ok tl)
    (hman : sb.manifestGen = .ok ml)
    (hwr : sb.writeManifest = .ok wl)
    (hts : sb.readTimestamp = .ok tsl)
    (hbad : tokenOk (tsl.stdout.map jsTrim) = false) :
    syncToR2 env sb =
      (.ok { success := false, error := some "Sync failed"
             details := jsOrStr tl.stderr
               (jsOrStr tl.stdout (some "No timestamp file created")) },
       [.mount, .sanityCheck, .rotate, .transfer, .manifestGen,
        .writeManifest, .readTimestamp]) := by
  simp [syncToR2, syncAttempt, hconfig, hmount, hsanity, hok, hrot, htr,
    hman, hwr, hts, hbad]

/-- C2: a fully successful cycle returns `success=true` with `lastSync`
exactly the trimmed timestamp token read back from the persistence step,
and that token matches the date-prefixed format (four digits, dash, two
digits, dash, two digits at the start). -/
theorem syncToR2_success_returns_token
    (env : MoltbotEnv) (sb : SyncSandbox) (cl rl tl ml wl tsl : ProcLogs)
    (tok : String)
    (hconfig : configMissing env = false)
    (hmount : sb.mountOk = true)
    (hsanity : sb.sanity = .ok cl)
    (hok : sanityOk cl = true)
    (hrot : sb.rotate = .ok rl)
    (htr : sb.transfer = .ok tl)
    (hman : sb.manifestGen = .ok ml)
    (hwr : sb.writeManifest = .ok wl)
    (hts : sb.readTimestamp = .ok tsl)
    (htok : tsl.stdout = some tok)
    (hgood : tokenOk (some (jsTrim tok)) = true) :
    syncToR2 env sb =
      (.ok { success := true, lastSync := some (jsTrim tok) },
       [.mount, .sanityCheck, .rotate, .transfer, .manifestGen,
        .writeManifest, .readTimestamp]) ∧
    matchesDateStart (jsTrim tok) = true := by
  refine ⟨sync_success_shape env sb cl rl tl ml wl tsl tok hconfig hmount
    hsanity hok hrot htr hman hwr hts htok hgood, ?_⟩
  have h := hgood
  unfold tokenOk at h
  exact (Bool.and_eq_true _ _ |>.mp h).2

/-- Witness for C2 at the all-good concrete sandbox. -/
theorem syncToR2_success_returns_token_w :
    syncToR2 envOk sbGood =
      (.ok { success := true
             lastSync := some (jsTrim "2026-01-27T12:00:00+00:00\n") },
       [.mount, .sanityCheck, .rotate, .transfer, .manifestGen,
        .writeManifest, .readTimestamp]) ∧
    matchesDateStart (jsTrim "2026-01-27T12:00:00+00:00\n") = true :=
  syncToR2_success_returns_token envOk sbGood ⟨some "ok", none, 0⟩
    quietLogs quietLogs ⟨some "clawdbot/clawdbot.json|abc123|100", none, 0⟩
    quietLogs ⟨some "2026-01-27T12:00:00+00:00\n", none, 0⟩
    "2026-01-27T12:00:00+00:00\n"
    (by decide) rfl rfl (by decide) rfl rfl rfl rfl rfl rfl (by decide)

/-- C4: when the transfer step completes with a non-zero exit code, the
pipeline still issues the manifest-generation and manifest/timestamp
persistence commands, and if the read-back token is not a well-formed
date the result is `success=false`, error `Sync failed`, with details
from the transfer step's captured output (stderr, else stdout). -/
theorem syncToR2_transfer_failure_diagnostics
    (env : MoltbotEnv) (sb : SyncSandbox) (cl rl tl ml wl tsl : ProcLogs)
    (hconfig : configMissing env = false)
    (hmount : sb.mountOk = true)
    (hsanity : sb.sanity = .ok cl)
    (hok : sanityOk cl = true)
    (hrot : sb.rotate = .ok rl)
    (htr : sb.transfer = .ok tl)
    (hexit : tl.exitCode ≠ 0)
    (hman : sb.manifestGen = .ok ml)
    (hwr : sb.writeManifest = .ok wl)
    (hts : sb.readTimestamp = .ok tsl)
    (hbad : tokenOk (tsl.stdout.map jsTrim) = false) :
    syncToR2 env sb =
      (.ok { success := false, error := some "Sync failed"
             details := jsOrStr tl.stderr
               (jsOrStr tl.stdout (some "No timestamp file created")) },
       [.mount, .sanityCheck, .rotate, .transfer, .manifestGen,
        .writeManifest, .readTimestamp]) ∧
    Eff.manifestGen ∈ (syncToR2 env sb).2 ∧
    Eff.writeManifest ∈ (syncToR2 env sb).2 := by
  have h := sync_fail_shape env sb cl rl tl ml wl tsl hconfig hmount
    hsanity hok hrot htr hman hwr hts hbad
  refine ⟨h, ?_, ?_⟩ <;> rw [h] <;> simp

/-- Witness for C4: rsync exits 1 with captured stderr, no token is
produced. -/
theorem syncToR2_transfer_failure_diagnostics_w :
    syncToR2 envOk
        { sbGood with
          transfer := .ok ⟨none, some "rsync: connection refused", 1⟩
          readTimestamp := .ok ⟨some "", none, 0⟩ } =
      (.ok { success := false, error := some "Sync failed"
             details := jsOrStr (some "rsync: connection refused")
               (jsOrStr none (some "No timestamp file created")) },
       [.mount, .sanityCheck, .rotate, .transfer, .manifestGen,
        .writeManifest, .readTimestamp]) ∧
    Eff.manifestGen ∈
      (syncToR2 envOk
        { sbGood with
          transfer := .ok ⟨none, some "rsync: connection refused", 1⟩
          readTimestamp := .ok ⟨some "", none, 0⟩ }).2 ∧
    Eff.writeManifest ∈
      (syncToR2 envOk
        { sbGood with
          transfer := .ok ⟨none, some "rsync: connection refused", 1⟩
          readTimestamp := .ok ⟨some "", none, 0⟩ }).2 :=
  syncToR2_transfer_failure_diagnostics envOk _ ⟨some "ok", none, 0⟩
    quietLogs ⟨none, some "rsync: connection refused", 1⟩
    ⟨some "clawdbot/clawdbot.json|abc123|100", none, 0⟩ quietLogs
    ⟨some "", none, 0⟩
    (by decide) rfl rfl (by decide) rfl rfl (by decide) rfl rfl rfl
    (by decide)

/-- Once rotation completes (with any logs and any exit code), the
transfer command is among the operations the pipeline issues. -/
theorem syncAttempt_mem_transfer (sb : SyncSandbox) (l : ProcLogs)
    (hrot : sb.rotate = .ok l) : Eff.transfer ∈ (syncAttempt sb).2 := by
  obtain ⟨mo, sa, ro, tr, mg, wm, rt⟩ := sb
  dsimp at hrot
  subst hrot
  cases tr <;> cases mg <;> cases wm <;> cases rt <;>
    simp only [syncAttempt] <;>
    first
      | simp
      | (split <;> simp)

/-- Under successful config, mount and sanity check, the trace of
`syncToR2` is the mount and sanity check followed by the pipeline's
trace, whatever the pipeline does. -/
theorem syncToR2_trace
    (env : MoltbotEnv) (sb : SyncSandbox) (cl : ProcLogs)
    (hconfig : configMissing env = false)
    (hmount : sb.mountOk = true)
    (hsanity : sb.sanity = .ok cl)
    (hok : sanityOk cl = true) :
    (syncToR2 env sb).2 = .mount :: .sanityCheck :: (syncAttempt sb).2 := by
  rcases h : syncAttempt sb with ⟨res, tr⟩
  cases res <;> simp [syncToR2, hconfig, hmount, hsanity, hok, h]

/-- C6: a completed rotation step never blocks the cycle — whatever the
rotation process printed or its exit code, the primary transfer command
is still issued and the entire invocation result is unchanged. -/
theorem syncToR2_rotation_best_effort
    (env : MoltbotEnv) (sb : SyncSandbox) (cl : ProcLogs)
    (l l' : ProcLogs)
    (hconfig : configMissing env = false)
    (hmount : sb.mountOk = true)
    (hsanity : sb.sanity = .ok cl)
    (hok : sanityOk cl = true) :
    Eff.transfer ∈ (syncToR2 env { sb with rotate := .ok l }).2 ∧
    syncToR2 env { sb with rotate := .ok l } =
      syncToR2 env { sb with rotate := .ok l' } := by
  constructor
  · rw [syncToR2_trace env { sb with rotate := .ok l } cl hconfig hmount
      hsanity hok]
    exact List.mem_cons_of_mem _ (List.mem_cons_of_mem _
      (syncAttempt_mem_transfer { sb with rotate := .ok l } l rfl))
  · rfl

/-- Witness for C6: a rotation whose copy commands failed (non-zero exit,
stderr output) versus a quiet one. -/
theorem syncToR2_rotation_best_effort_w :
    Eff.transfer ∈
      (syncToR2 envOk
        { sbGood with
          rotate := .ok ⟨none, some "cp: cannot create directory", 1⟩ }).2 ∧
    syncToR2 envOk
        { sbGood with
          rotate := .ok ⟨none, some "cp: cannot create directory", 1⟩ } =
      syncToR2 envOk { sbGood with rotate := .ok quietLogs } :=
  syncToR2_rotation_best_effort envOk sbGood ⟨some "ok", none, 0⟩
    ⟨none, some "cp: cannot create directory", 1⟩ quietLogs
    (by decide) rfl rfl (by decide)

/-- C10: with every spawned command completing, the success outcome is
decided by the trimmed read-back token alone — the timestamp is written
and read back regardless of the transfer's exit status, so two runs
differing only in the rsync exit code (with the same well-formed token)
both return `success=true`, and indeed yield identical results. -/
theorem syncToR2_outcome_exitcode_indep
    (env : MoltbotEnv) (sb : SyncSandbox) (cl rl ml wl tsl : ProcLogs)
    (out errS : Option String) (c c' : Int) (tok : String)
    (hconfig : configMissing env = false)
    (hmount : sb.mountOk = true)
    (hsanity : sb.sanity = .ok cl)
    (hok : sanityOk cl = true)
    (hrot : sb.rotate = .ok rl)
    (hman : sb.manifestGen = .ok ml)
    (hwr : sb.writeManifest = .ok wl)
    (hts : sb.readTimestamp = .ok tsl)
    (htok : tsl.stdout = some tok)
    (hgood : tokenOk (some (jsTrim tok)) = true) :
    (syncToR2 env { sb with transfer := .ok ⟨out, errS, c⟩ }).1 =
      .ok { success := true, lastSync := some (jsTrim tok) } ∧
    (syncToR2 env { sb with transfer := .ok ⟨out, errS, c'⟩ }).1 =
      .ok { success := true, lastSync := some (jsTrim tok) } ∧
    syncToR2 env { sb with transfer := .ok ⟨out, errS, c⟩ } =
      syncToR2 env { sb with transfer := .ok ⟨out, errS, c'⟩ } := by
  have h1 := sync_success_shape env { sb with transfer := .ok ⟨out, errS, c⟩ }
    cl rl ⟨out, errS, c⟩ ml wl tsl tok hconfig hmount hsanity hok hrot rfl
    hman hwr hts htok hgood
  have h2 := sync_success_shape env
    { sb with transfer := .ok ⟨out, errS, c'⟩ }
    cl rl ⟨out, errS, c'⟩ ml wl tsl tok hconfig hmount hsanity hok hrot rfl
    hman hwr hts htok hgood
  exact ⟨by rw [h1], by rw [h2], h1.trans h2.symm⟩

/-- Witness for C10: exit code 0 versus exit code 1 on the transfer. -/
theorem syncToR2_outcome_exitcode_indep_w :
    (syncToR2 envOk
        { sbGood with transfer := .ok ⟨some "", none, 0⟩ }).1 =
      .ok { success := true
            lastSync := some (jsTrim "2026-01-27T12:00:00+00:00\n") } ∧
    (syncToR2 envOk
        { sbGood with transfer := .ok ⟨some "", none, 1⟩ }).1 =
      .ok { success := true
            lastSync := some (jsTrim "2026-01-27T12:00:00+00:00\n") } ∧
    syncToR2 envOk { sbGood with transfer := .ok ⟨some "", none, 0⟩ } =
      syncToR2 envOk { sbGood with transfer := .ok ⟨some "", none, 1⟩ } :=
  syncToR2_outcome_exitcode_indep envOk sbGood ⟨some "ok", none, 0⟩
    quietLogs ⟨some "clawdbot/clawdbot.json|abc123|100", none, 0⟩ quietLogs
    ⟨some "2026-01-27T12:00:00+00:00\n", none, 0⟩
    (some "") none 0 1 "2026-01-27T12:00:00+00:00\n"
    (by decide) rfl rfl (by decide) rfl rfl rfl rfl rfl (by decide)

/-- Every invocation of `syncToR2` resolves with a structured result:
every throw of a spawned command is caught by some handler. -/
theorem syncToR2_resolves (env : MoltbotEnv) (sb : SyncSandbox) :
    ∃ r t, syncToR2 env sb = (.ok r, t) := by
  unfold syncToR2
  repeat' split
  all_goals exact ⟨_, _, rfl⟩

/-- Every invocation of `verifyR2Backup` resolves with a structured
result: every throw of a spawned command is caught by some handler. -/
theorem verifyR2Backup_resolves (env : MoltbotEnv) (sb : VerifySandbox) :
    ∃ r t, verifyR2Backup env sb = (.ok r, t) := by
  unfold verifyR2Backup
  repeat' split
  all_goals exact ⟨_, _, rfl⟩

/-- C9: for every environment and every behaviour of the spawned
commands — including any of them throwing — both public operations
resolve with a structured result and never reject across their
boundary. -/
theorem public_ops_never_reject
    (env : MoltbotEnv) (ssb : SyncSandbox) (vsb : VerifySandbox) :
    (∃ r t, syncToR2 env ssb = (.ok r, t)) ∧
    (∃ r t, verifyR2Backup env vsb = (.ok r, t)) :=
  ⟨syncToR2_resolves env ssb, verifyR2Backup_resolves env vsb⟩

/-- When every checksum command in scope completes, the verification
loop accumulates exactly one message per mismatching entry, in order,
and issues one checksum command per entry. -/
theorem verifyLoop_ok (sb : VerifySandbox) (entries : List ManifestEntry)
    (h : ∀ e ∈ entries, ∃ l, sb.checksumOf e.path = .ok l) :
    ∀ errs tr, verifyLoop sb entries errs tr =
      (.ok (errs ++ (entries.filter (fun e => entryCorrupt sb e)).map
        (fun e => entryMsg sb e)),
       tr ++ entries.map (fun e => .checksum e.path)) := by
  induction entries with
  | nil => intro errs tr; simp [verifyLoop]
  | cons e rest ih =>
    intro errs tr
    obtain ⟨l, hl⟩ := h e (List.mem_cons_self _ _)
    have hrest : ∀ x ∈ rest, ∃ lg, sb.checksumOf x.path = .ok lg :=
      fun x hx => h x (List.mem_cons_of_mem _ hx)
    simp only [verifyLoop, hl]
    rw [ih hrest]
    by_cases hc : checksumNe (l.stdout.map jsTrim) e.checksum = true
    · simp [hc, entryCorrupt, entryMsg, hl, List.filter_cons,
        List.append_assoc]
    · simp [hc, entryCorrupt, entryMsg, hl, List.filter_cons]

/-- C3: with config, mount, manifest read-back and parse all succeeding
and every checksum command completing, `verifyR2Backup` accumulates one
error per corrupted entry (a missing file's empty checksum counts as a
mismatch, not an exception), never short-circuits, and `valid` holds iff
the error list is empty. -/
theorem verifyR2Backup_enumerates_mismatches
    (env : MoltbotEnv) (sb : VerifySandbox) (logs : ProcLogs)
    (m : BackupManifest)
    (hconfig : configMissing env = false)
    (hmount : sb.mountOk = true)
    (hread : sb.readManifest = .ok logs)
    (hstd : falsyStr logs.stdout = false)
    (hparse : sb.parseJson (logs.stdout.getD "") = .ok m)
    (hall : ∀ e ∈ m.entries, ∃ l, sb.checksumOf e.path = .ok l) :
    verifyR2Backup env sb =
      (.ok { valid := ((m.entries.filter (fun e => entryCorrupt sb e)).map
                (fun e => entryMsg sb e)).isEmpty
             errors := (m.entries.filter (fun e => entryCorrupt sb e)).map
               (fun e => entryMsg sb e) },
       [.mount, .readManifest] ++
         m.entries.map (fun e => Eff.checksum e.path)) ∧
    ((m.entries.filter (fun e => entryCorrupt sb e)).map
        (fun e => entryMsg sb e)).length =
      (m.entries.filter (fun e => entryCorrupt sb e)).length ∧
    (((m.entries.filter (fun e => entryCorrupt sb e)).map
        (fun e => entryMsg sb e)).isEmpty = true ↔
      m.entries.filter (fun e => entryCorrupt sb e) = []) := by
  refine ⟨?_, by simp, by simp⟩
  simp only [verifyR2Backup, hconfig, hmount, hread, hstd, hparse]
  rw [verifyLoop_ok sb m.entries hall [] [.mount, .readManifest]]
  simp

/-- Witness for C3 on the concrete two-entry manifest with one corrupted
file. -/
theorem verifyR2Backup_enumerates_mismatches_w :
    verifyR2Backup envOk vsbC3 =
      (.ok { valid := ((mC3.entries.filter
                (fun e => entryCorrupt vsbC3 e)).map
                (fun e => entryMsg vsbC3 e)).isEmpty
             errors := (mC3.entries.filter
               (fun e => entryCorrupt vsbC3 e)).map
               (fun e => entryMsg vsbC3 e) },
       [.mount, .readManifest] ++
         mC3.entries.map (fun e => Eff.checksum e.path)) ∧
    ((mC3.entries.filter (fun e => entryCorrupt vsbC3 e)).map
        (fun e => entryMsg vsbC3 e)).length =
      (mC3.entries.filter (fun e => entryCorrupt vsbC3 e)).length ∧
    (((mC3.entries.filter (fun e => entryCorrupt vsbC3 e)).map
        (fun e => entryMsg vsbC3 e)).isEmpty = true ↔
      mC3.entries.filter (fun e => entryCorrupt vsbC3 e) = []) :=
  verifyR2Backup_enumerates_mismatches envOk vsbC3
    ⟨some "manifest-json", none, 0⟩ mC3
    (by decide) rfl rfl (by decide) rfl (fun e _ => ⟨_, rfl⟩)

/-- C7 counterexample: a record line whose size field (`xyz`) does not
parse as an integer is NOT excluded from the manifest's entries — it is
kept, with its size coerced to `0`. -/
theorem manifestEntries_keeps_bad_size :
    manifestEntries (some "clawdbot/a.json|abc|xyz") =
      [{ path := "clawdbot/a.json", checksum := "abc", size := 0 }] ∧
    manifestEntries (some "clawdbot/a.json|abc|xyz") ≠ [] := by
  constructor <;> decide

/-- C7 amended: during manifest generation, exactly the lines lacking a
`|` separator are skipped; every `|`-containing line is emitted as its
parsed record (so the whole manifest is never aborted), and a kept record
whose size field is missing or unparsable gets size `0` instead of being
skipped. -/
theorem manifestEntries_amended (o : Option String) :
    (∀ e ∈ manifestEntries o,
      ∃ l ∈ jsSplit (jsTrim (o.getD "")) '\n',
        strContains l "|" = true ∧ e = parseManifestLine l) ∧
    (∀ l ∈ jsSplit (jsTrim (o.getD "")) '\n',
      strContains l "|" = true → parseManifestLine l ∈ manifestEntries o) ∧
    (∀ l : String,
      ((jsSplit l '|')[2]? = none ∨
        parseIntJS (((jsSplit l '|')[2]?).getD "") = none) →
      (parseManifestLine l).size = 0) := by
  refine ⟨?_, ?_, ?_⟩
  · intro e he
    unfold manifestEntries at he
    obtain ⟨l, hl, rfl⟩ := List.mem_map.mp he
    obtain ⟨hl1, hl2⟩ := List.mem_filter.mp hl
    exact ⟨l, hl1, hl2, rfl⟩
  · intro l hl hsep
    unfold manifestEntries
    exact List.mem_map_of_mem _ (List.mem_filter.mpr ⟨hl, hsep⟩)
  · intro l hbad
    rcases h2 : (jsSplit l '|')[2]? with _ | s
    · simp [parseManifestLine, parseSizeJS, h2]
    · rcases hbad with hb | hb
      · rw [h2] at hb; cases hb
      · rw [h2] at hb
        simp only [Option.getD_some] at hb
        simp [parseManifestLine, parseSizeJS, h2, hb]

/-- Witness for the C7 amended theorem: the separated line with an
unparsable size is emitted, from a mixed two-line output. -/
theorem manifestEntries_amended_w :
    parseManifestLine "a|b|xyz" ∈ manifestEntries (some "a|b|xyz\nnosep") :=
  (manifestEntries_amended (some "a|b|xyz\nnosep")).2.1 "a|b|xyz"
    (by decide) (by decide)
